import Mathlib

/-!
Shallow embedding of the Raycast "Generate Command" extension
(`src/generate-command.tsx`) and proofs about its prompt assembly,
relevance filtering, history store and interaction controller.

Optional string-valued fields of the TypeScript `Context` interface are
modelled as `Option String`; JavaScript truthiness of a string value
(`s` is falsy iff it is the empty string) appears as `!s.isEmpty` checks,
exactly where the source tests truthiness.
-/

set_option maxRecDepth 4000

/-- JavaScript whitespace as used by `String.prototype.trim` (the kinds that
occur in this development). -/
def isJsWs (c : Char) : Bool :=
  c = ' ' || c = '\n' || c = '\t' || c = '\r'

/-- Model of JavaScript `String.prototype.trim`: strip leading and trailing
whitespace. -/
def jsTrim (s : String) : String :=
  String.mk (((s.data.dropWhile isJsWs).reverse.dropWhile isJsWs).reverse)

/-- Model of JavaScript `String.prototype.toLowerCase` (ASCII-faithful). -/
def jsToLower (s : String) : String :=
  String.mk (s.data.map Char.toLower)

/-- The `Context` interface of the source: three optional signals gathered
from the environment. Field order follows the source declaration. -/
structure Context where
  selectedText : Option String
  currentApp : Option String
  currentDirectory : Option String
deriving DecidableEq

/-- The `RELEVANT_APPS` set from the source, as a list (membership is what
the code queries via `Set.has`). -/
def RELEVANT_APPS : List String :=
  ["Terminal", "iTerm2", "iTerm", "Hyper", "Warp", "Alacritty", "kitty",
   "Code", "Cursor", "Zed", "Sublime Text", "Atom", "WebStorm",
   "IntelliJ IDEA", "PyCharm", "Visual Studio Code"]

/-- The first guarded `parts.push` of `buildPrompt`:
`if (context.currentApp && RELEVANT_APPS.has(context.currentApp))
   parts.push(`Current app: ...`)`. -/
def appPart (context : Context) : List String :=
  match context.currentApp with
  | some app =>
      if !app.isEmpty && RELEVANT_APPS.contains app then
        ["Current app: " ++ app]
      else []
  | none => []

/-- The second guarded `parts.push` of `buildPrompt`:
`if (context.currentDirectory) parts.push(`Current directory: ...`)`. -/
def dirPart (context : Context) : List String :=
  match context.currentDirectory with
  | some dir => if !dir.isEmpty then ["Current directory: " ++ dir] else []
  | none => []

/-- The third guarded `parts.push` of `buildPrompt`:
`if (context.selectedText && context.selectedText.length < 2000)
   parts.push(`Selected text:\n...`)`. -/
def selPart (context : Context) : List String :=
  match context.selectedText with
  | some sel =>
      if !sel.isEmpty && sel.length < 2000 then
        ["Selected text:\n" ++ sel]
      else []
  | none => []

/-- `buildPrompt(userPrompt, context)` from the source: assembles the user
message from the guarded context parts; when at least one part was kept the
result is a `Context:` block followed by `Request: <userPrompt>`, otherwise
the bare `userPrompt`. -/
def buildPrompt (userPrompt : String) (context : Context) : String :=
  let parts : List String := appPart context ++ dirPart context ++ selPart context
  if parts.length > 0 then
    "Context:\n" ++ String.intercalate "\n" parts ++ "\n\nRequest: " ++ userPrompt
  else
    userPrompt

/-- Whether `buildPrompt` keeps the foreground app: the condition of the
first guarded push (truthy and member of `RELEVANT_APPS`). -/
def keepApp (context : Context) : Bool :=
  match context.currentApp with
  | some app => !app.isEmpty && RELEVANT_APPS.contains app
  | none => false

/-- Whether `buildPrompt` keeps the working directory: the condition of the
second guarded push (truthy). -/
def keepDir (context : Context) : Bool :=
  match context.currentDirectory with
  | some dir => !dir.isEmpty
  | none => false

/-- Whether `buildPrompt` keeps the selected text: the condition of the
third guarded push (truthy and shorter than 2000 characters). -/
def keepSel (context : Context) : Bool :=
  match context.selectedText with
  | some sel => !sel.isEmpty && sel.length < 2000
  | none => false

/-- `MAX_HISTORY` from the source. -/
def MAX_HISTORY : Nat := 20

/-- The pure list transformation inside `addToHistory`:
`[prompt, ...history.filter(h => h !== prompt)].slice(0, MAX_HISTORY)`. -/
def addToHistoryList (history : List String) (prompt : String) : List String :=
  let filtered := history.filter (fun h => h ≠ prompt)
  (prompt :: filtered).take MAX_HISTORY

/-- JSON escape sequences recognised after a backslash (model of the
platform's `JSON.parse` string escapes, restricted to the common ones). -/
def parseEsc (c : Char) : Option Char :=
  if c = '"' then some '"'
  else if c = '\\' then some '\\'
  else if c = '/' then some '/'
  else if c = 'n' then some '\n'
  else if c = 't' then some '\t'
  else if c = 'r' then some '\r'
  else none

/-- Modelled from the spec: the persistence boundary's deserialisation
(`JSON.parse`) for the body of a JSON string literal; consumes characters
up to an unescaped closing quote. -/
def parseStrAux : List Char → List Char → Option (String × List Char)
  | [], _ => none
  | '"' :: rest, acc => some (String.mk acc.reverse, rest)
  | '\\' :: [], _ => none
  | '\\' :: e :: rest2, acc =>
      match parseEsc e with
      | some d => parseStrAux rest2 (d :: acc)
      | none => none
  | c :: rest, acc => parseStrAux rest (c :: acc)

/-- Skip JSON whitespace. -/
def skipWs : List Char → List Char
  | [] => []
  | c :: cs => if isJsWs c then skipWs cs else c :: cs

/-- Modelled from the spec: `JSON.parse` of the elements of a non-empty
JSON array of strings (fuel-indexed recursive descent). -/
def parseArrayAux : Nat → List Char → Option (List String × List Char)
  | 0, _ => none
  | fuel + 1, cs =>
      match skipWs cs with
      | '"' :: rest =>
          match parseStrAux rest [] with
          | none => none
          | some (s, rest2) =>
              match skipWs rest2 with
              | ',' :: rest3 =>
                  match parseArrayAux fuel rest3 with
                  | some (l, r) => some (s :: l, r)
                  | none => none
              | ']' :: rest3 => some ([s], rest3)
              | _ => none
      | _ => none

/-- Modelled from the spec: the platform `JSON.parse`, restricted to the
shape the history writer ever stores (a JSON array of strings); any other
input makes it throw, modelled as `Except.error`. -/
def jsonParseStringList (s : String) : Except String (List String) :=
  match skipWs s.data with
  | '[' :: rest =>
      match skipWs rest with
      | ']' :: rest2 =>
          if (skipWs rest2).isEmpty then Except.ok [] else Except.error "invalid JSON"
      | _ =>
          match parseArrayAux (s.length + 1) rest with
          | some (l, rest2) =>
              if (skipWs rest2).isEmpty then Except.ok l else Except.error "invalid JSON"
          | none => Except.error "invalid JSON"
  | _ => Except.error "invalid JSON"

/-- Outcome of the persistence read (`LocalStorage.getItem`): the key may be
absent, hold a string, or the read itself may fail (a rejected promise). -/
inductive ReadOutcome where
  | absent : ReadOutcome
  | stored : String → ReadOutcome
  | failed : String → ReadOutcome
deriving DecidableEq

/-- `getHistory()` from the source:
`const stored = await LocalStorage.getItem(HISTORY_KEY);
 return stored ? JSON.parse(stored) : [];`
There is no try/catch: a rejected read propagates, and `JSON.parse` of
malformed stored data throws (propagates). A falsy `stored` (absent key or
empty string) yields `[]`. -/
def getHistory (r : ReadOutcome) : Except String (List String) :=
  match r with
  | ReadOutcome.failed msg => Except.error msg
  | ReadOutcome.absent => Except.ok []
  | ReadOutcome.stored s => if s.isEmpty then Except.ok [] else jsonParseStringList s

/-- Whether `pre` is a prefix of `l`, as a computation on characters. -/
def charsPrefix : List Char → List Char → Bool
  | [], _ => true
  | _ :: _, [] => false
  | a :: as, b :: bs => a = b && charsPrefix as bs

/-- Whether `sub` occurs as a contiguous run inside `l`. -/
def charsInfix (sub : List Char) : List Char → Bool
  | [] => sub.isEmpty
  | c :: cs => charsPrefix sub (c :: cs) || charsInfix sub cs

/-- Model of JavaScript `String.prototype.includes`: `sub` occurs as a
substring of `s` (the empty string occurs in every string). -/
def jsIncludes (s sub : String) : Bool :=
  charsInfix sub.data s.data

/-- The `filteredHistory` expression of the `Command` component:
`searchText.trim() ? history.filter(item =>
   item.toLowerCase().includes(searchText.toLowerCase())) : history`. -/
def filteredHistory (history : List String) (searchText : String) : List String :=
  if (jsTrim searchText).isEmpty then history
  else history.filter (fun item => jsIncludes (jsToLower item) (jsToLower searchText))

/-- One block of `message.content`: a text block (carrying its text) or a
block of any other type. -/
inductive ContentBlock where
  | text : String → ContentBlock
  | other : ContentBlock
deriving DecidableEq

/-- The environment a single `generateCommand` call runs against: the
gathered context, the backend call's outcome (`client.messages.create`
either resolves with a content list or rejects), the history the store
currently holds, and whether the history write (`LocalStorage.setItem`)
succeeds. -/
structure GenEnv where
  context : Context
  backend : Except String (List ContentBlock)
  stored : List String
  writeOk : Bool

/-- Observable outcome of one `generateCommand` call: failure-toast titles
shown (in order), HUD messages, what was pasted/copied, the history value
persisted (if the write happened and succeeded), whether the main window
was closed, whether context acquisition and the backend call happened,
whether `setIsLoading(true)` ever ran, and the final `isLoading` value. -/
structure GenOutcome where
  toasts : List String
  huds : List String
  pasted : Option String
  copied : Option String
  persisted : Option (List String)
  windowClosed : Bool
  contextAcquired : Bool
  backendCalled : Bool
  loadingSetTrue : Bool
  loadingFinal : Bool
deriving DecidableEq

/-- `generateCommand(prompt, copyOnly)` from the source, as a pure function
of the call's environment. Mirrors the control flow line by line: empty
trimmed prompt is rejected with a toast before any side effect; otherwise
`isLoading` is set, context is gathered, the backend is called; a rejected
backend call, an empty content list, or a failing history write all land in
the catch block ("Error" toast, `setIsLoading(false)`); an empty trimmed
text yields the "No command generated" toast with no history write and no
delivery; on the success path the history is written, the window closed and
the command pasted or copied (and `isLoading` is never reset). -/
def generateCommand (prompt : String) (copyOnly : Bool) (env : GenEnv) : GenOutcome :=
  if (jsTrim prompt).isEmpty then
    { toasts := ["Please enter a description"], huds := [], pasted := none,
      copied := none, persisted := none, windowClosed := false,
      contextAcquired := false, backendCalled := false,
      loadingSetTrue := false, loadingFinal := false }
  else
    match env.backend with
    | Except.error _msg =>
        { toasts := ["Error"], huds := [], pasted := none, copied := none,
          persisted := none, windowClosed := false, contextAcquired := true,
          backendCalled := true, loadingSetTrue := true, loadingFinal := false }
    | Except.ok content =>
        match content with
        | [] =>
            -- `message.content[0].type` on an empty array throws, caught below
            { toasts := ["Error"], huds := [], pasted := none, copied := none,
              persisted := none, windowClosed := false, contextAcquired := true,
              backendCalled := true, loadingSetTrue := true, loadingFinal := false }
        | block :: _ =>
            let command :=
              match block with
              | ContentBlock.text s => jsTrim s
              | ContentBlock.other => ""
            if command.isEmpty then
              { toasts := ["No command generated"], huds := [], pasted := none,
                copied := none, persisted := none, windowClosed := false,
                contextAcquired := true, backendCalled := true,
                loadingSetTrue := true, loadingFinal := false }
            else
              if env.writeOk then
                let updated := addToHistoryList env.stored prompt
                if copyOnly then
                  { toasts := [], huds := ["Command copied"], pasted := none,
                    copied := some command, persisted := some updated,
                    windowClosed := true, contextAcquired := true,
                    backendCalled := true, loadingSetTrue := true,
                    loadingFinal := true }
                else
                  { toasts := [], huds := ["Command pasted"],
                    pasted := some command, copied := none,
                    persisted := some updated, windowClosed := true,
                    contextAcquired := true, backendCalled := true,
                    loadingSetTrue := true, loadingFinal := true }
              else
                -- `LocalStorage.setItem` rejected inside `addToHistory`: caught
                { toasts := ["Error"], huds := [], pasted := none, copied := none,
                  persisted := none, windowClosed := false, contextAcquired := true,
                  backendCalled := true, loadingSetTrue := true,
                  loadingFinal := false }

/-- The React component state relevant to the interaction controller:
`searchText`, `isLoading`, the cached `history`, and `listKey` (the
generation epoch forcing a List remount). -/
structure UIState where
  searchText : String
  isLoading : Bool
  history : List String
  listKey : Nat
deriving DecidableEq

/-- Externally visible requests an action handler can issue. -/
inductive UIEffect where
  | generationRequest : String → UIEffect
  | storageWrite : List String → UIEffect
  | storageRemove : UIEffect
deriving DecidableEq

/-- The "Use Prompt" action handler of a history item: it runs
`setSearchText(item)` and schedules `setListKey(k => k + 1)`; it contains
no call to `generateCommand` and touches no storage, so it issues no
effect. -/
def usePromptAction (st : UIState) (item : String) : UIState × List UIEffect :=
  ({ st with searchText := item, listKey := st.listKey + 1 }, [])

example : buildPrompt "find large files" ⟨none, none, none⟩ = "find large files" := by decide
example : buildPrompt "grep for TODOs" ⟨none, some "Terminal", some "~/project"⟩ =
    "Context:\nCurrent app: Terminal\nCurrent directory: ~/project\n\nRequest: grep for TODOs" := by
  decide
example : addToHistoryList ["A", "B", "C"] "B" = ["B", "A", "C"] := by decide
example : jsonParseStringList "[\"ls\"]" = Except.ok ["ls"] := rfl
example : jsonParseStringList "oops" = Except.error "invalid JSON" := rfl
example : jsonParseStringList "[]" = Except.ok [] := rfl
example : jsonParseStringList "[\"a\",\"b c\"]" = Except.ok ["a", "b c"] := rfl
example : filteredHistory ["Alpha", "beta", "Gamma"] "a" = ["Alpha", "beta", "Gamma"] := by decide
example : filteredHistory ["AB"] " " = ["AB"] := by decide
example : jsIncludes "ab" " " = false := by decide

theorem relevant_apps_nonempty : ∀ a ∈ RELEVANT_APPS, a.isEmpty = false := by decide

theorem appPart_eq (c : Context) :
    appPart c = if keepApp c then ["Current app: " ++ c.currentApp.getD ""] else [] := by
  rcases c with ⟨sel, app, dir⟩
  cases app <;> simp [appPart, keepApp]

theorem dirPart_eq (c : Context) :
    dirPart c = if keepDir c then ["Current directory: " ++ c.currentDirectory.getD ""] else [] := by
  rcases c with ⟨sel, app, dir⟩
  cases dir <;> simp [dirPart, keepDir]

theorem selPart_eq (c : Context) :
    selPart c = if keepSel c then ["Selected text:\n" ++ c.selectedText.getD ""] else [] := by
  rcases c with ⟨sel, app, dir⟩
  cases sel <;> simp [selPart, keepSel]

theorem buildPrompt_keeps (userPrompt : String) (c : Context) :
    buildPrompt userPrompt c =
      if keepApp c || keepDir c || keepSel c then
        "Context:\n" ++ String.intercalate "\n"
          ((if keepApp c then ["Current app: " ++ c.currentApp.getD ""] else []) ++
           (if keepDir c then ["Current directory: " ++ c.currentDirectory.getD ""] else []) ++
           (if keepSel c then ["Selected text:\n" ++ c.selectedText.getD ""] else [])) ++
        "\n\nRequest: " ++ userPrompt
      else userPrompt := by
  simp only [buildPrompt, appPart_eq, dirPart_eq, selPart_eq]
  cases hA : keepApp c <;> cases hD : keepDir c <;> cases hS : keepSel c <;> simp

/-- C1 counterexample: with no surviving context, `buildPrompt` returns the
bare request text with no "Request: " label, so the user section for
"find large files" is not `"Request: find large files"` as claimed. -/
theorem no_context_request_label_counterexample :
    buildPrompt "find large files" ⟨none, none, none⟩ = "find large files"
  ∧ buildPrompt "find large files" ⟨none, none, none⟩ ≠ "Request: find large files" := by
  constructor
  · rfl
  · decide

/-- C1 (amended): the user message lists, in order, the kept foreground app
as a labeled line, the kept working directory as a labeled line, and the
kept selected text as a labeled multi-line block under a "Context:" header,
followed by the literal request text under a "Request" label; when no
context fields survived filtering, the user section is exactly the bare
request text with no label (for "find large files" with no context it is
exactly "find large files"); with app "Terminal" and directory "~/project"
the section begins with the context block before the request line. -/
theorem buildPrompt_user_section :
    (∀ (userPrompt : String) (c : Context),
      buildPrompt userPrompt c =
        if keepApp c || keepDir c || keepSel c then
          "Context:\n" ++ String.intercalate "\n"
            ((if keepApp c then ["Current app: " ++ c.currentApp.getD ""] else []) ++
             (if keepDir c then ["Current directory: " ++ c.currentDirectory.getD ""] else []) ++
             (if keepSel c then ["Selected text:\n" ++ c.selectedText.getD ""] else []))
          ++ "\n\nRequest: " ++ userPrompt
        else userPrompt)
  ∧ buildPrompt "grep for TODOs" ⟨none, some "Terminal", some "~/project"⟩ =
      "Context:\nCurrent app: Terminal\nCurrent directory: ~/project\n\nRequest: grep for TODOs"
  ∧ buildPrompt "find large files" ⟨none, none, none⟩ = "find large files" :=
  ⟨buildPrompt_keeps, by decide, rfl⟩

/-- A concrete history of 20 pairwise-distinct entries (the capacity of the
store). -/
def historyAtCapacity : List String :=
  ["c00", "c01", "c02", "c03", "c04", "c05", "c06", "c07", "c08", "c09",
   "c10", "c11", "c12", "c13", "c14", "c15", "c16", "c17", "c18", "c19"]

/-- C2: `record` removes any existing occurrence of the entry, prepends it,
and truncates to `MAX_HISTORY` (20): the result starts with the entry,
contains it exactly once, never exceeds 20 entries, and is duplicate-free
whenever the stored history was; recording "B" into ["A", "B", "C"] yields
["B", "A", "C"], and recording a new entry into a history at capacity drops
the oldest (last) entry, leaving exactly 20 entries. -/
theorem addToHistory_record_spec (history : List String) (entry : String)
    (hnd : history.Nodup) :
    (addToHistoryList history entry).head? = some entry
  ∧ (addToHistoryList history entry).count entry = 1
  ∧ (addToHistoryList history entry).length ≤ MAX_HISTORY
  ∧ (addToHistoryList history entry).Nodup
  ∧ MAX_HISTORY = 20
  ∧ addToHistoryList ["A", "B", "C"] "B" = ["B", "A", "C"]
  ∧ addToHistoryList historyAtCapacity "new" = "new" :: historyAtCapacity.dropLast
  ∧ (addToHistoryList historyAtCapacity "new").length = 20 := by
  have hr : addToHistoryList history entry
      = entry :: (history.filter (fun h => h ≠ entry)).take 19 := rfl
  have hmem : entry ∉ (history.filter (fun h => h ≠ entry)).take 19 := by
    intro hm
    have hmf := (List.take_sublist 19 _).subset hm
    simp [List.mem_filter] at hmf
  refine ⟨by rw [hr]; rfl, ?_, ?_, ?_, rfl, by decide, by decide, by decide⟩
  · rw [hr, List.count_cons_self, List.count_eq_zero.mpr hmem]
  · rw [hr]
    simp only [List.length_cons, List.length_take, MAX_HISTORY]
    omega
  · rw [hr]
    exact List.nodup_cons.mpr ⟨hmem, (hnd.filter _).sublist (List.take_sublist 19 _)⟩

/-- C2 witness: the record theorem applied to the concrete history
["A", "B", "C"] and entry "B". -/
theorem addToHistory_record_spec_witness :
    (addToHistoryList ["A", "B", "C"] "B").head? = some "B" :=
  (addToHistory_record_spec ["A", "B", "C"] "B" (by decide)).1

/-- C3 counterexample: generation succeeds ("ls -la") but the history write
fails; `addToHistory` rejects inside the try block, so control jumps to the
catch: the failure is surfaced ("Error" toast) but the generated command is
neither pasted nor copied, contradicting "the just-generated command is
still delivered". -/
theorem write_failure_delivery_counterexample :
    (generateCommand "list files" false
      ⟨⟨none, none, none⟩, Except.ok [ContentBlock.text "ls -la"], [], false⟩).toasts = ["Error"]
  ∧ (generateCommand "list files" false
      ⟨⟨none, none, none⟩, Except.ok [ContentBlock.text "ls -la"], [], false⟩).pasted = none
  ∧ (generateCommand "list files" false
      ⟨⟨none, none, none⟩, Except.ok [ContentBlock.text "ls -la"], [], false⟩).copied = none := by
  refine ⟨rfl, rfl, rfl⟩

/-- C3 (amended): if generation succeeds but the persistence write of the
updated history fails, the failure is surfaced as a failure notification,
but the just-generated command is NOT delivered (neither pasted nor
copied): the write failure lands in the catch block before any delivery,
so delivery does depend on the history write succeeding. -/
theorem write_failure_no_delivery (prompt : String) (copyOnly : Bool) (env : GenEnv)
    (s : String) (rest : List ContentBlock)
    (hp : (jsTrim prompt).isEmpty = false)
    (hb : env.backend = Except.ok (ContentBlock.text s :: rest))
    (hs : (jsTrim s).isEmpty = false)
    (hw : env.writeOk = false) :
    (generateCommand prompt copyOnly env).toasts = ["Error"]
  ∧ (generateCommand prompt copyOnly env).pasted = none
  ∧ (generateCommand prompt copyOnly env).copied = none
  ∧ (generateCommand prompt copyOnly env).persisted = none
  ∧ (generateCommand prompt copyOnly env).windowClosed = false
  ∧ (generateCommand prompt copyOnly env).loadingFinal = false := by
  simp [generateCommand, hp, hb, hs, hw]

/-- C3 witness: the amended theorem applied to a concrete environment whose
history write fails. -/
theorem write_failure_no_delivery_witness :
    (generateCommand "show usage" true
      ⟨⟨none, none, none⟩, Except.ok [ContentBlock.text "du -sh *"], ["old"], false⟩).pasted
      = none :=
  (write_failure_no_delivery "show usage" true
    ⟨⟨none, none, none⟩, Except.ok [ContentBlock.text "du -sh *"], ["old"], false⟩
    "du -sh *" [] (by decide) rfl (by decide) rfl).2.1

/-- C4: when the backend's first content block is text that is empty after
trimming, the call fails with the "No command generated" toast, the history
is not written, nothing is pasted or copied, the window stays open, and
`isLoading` is cleared. -/
theorem empty_response_no_side_effects (prompt : String) (copyOnly : Bool) (env : GenEnv)
    (s : String) (rest : List ContentBlock)
    (hp : (jsTrim prompt).isEmpty = false)
    (hb : env.backend = Except.ok (ContentBlock.text s :: rest))
    (hs : (jsTrim s).isEmpty = true) :
    (generateCommand prompt copyOnly env).toasts = ["No command generated"]
  ∧ (generateCommand prompt copyOnly env).persisted = none
  ∧ (generateCommand prompt copyOnly env).pasted = none
  ∧ (generateCommand prompt copyOnly env).copied = none
  ∧ (generateCommand prompt copyOnly env).windowClosed = false
  ∧ (generateCommand prompt copyOnly env).loadingFinal = false := by
  simp [generateCommand, hp, hb, hs]

/-- C4 witness: the empty-response theorem applied to a backend returning
whitespace-only text. -/
theorem empty_response_no_side_effects_witness :
    (generateCommand "find big files" false
      ⟨⟨none, none, none⟩, Except.ok [ContentBlock.text "  \n"], ["old"], true⟩).toasts
      = ["No command generated"] :=
  (empty_response_no_side_effects "find big files" false
    ⟨⟨none, none, none⟩, Except.ok [ContentBlock.text "  \n"], ["old"], true⟩
    "  \n" [] (by decide) rfl (by decide)).1

/-- C5: a submission whose request text is empty after trimming is rejected
before any side effect: only the validation toast is shown, context is not
acquired, the backend is not called, the history is not written, nothing is
delivered, and `isLoading` is never set. -/
theorem empty_prompt_rejected (prompt : String) (copyOnly : Bool) (env : GenEnv)
    (hp : (jsTrim prompt).isEmpty = true) :
    generateCommand prompt copyOnly env =
      { toasts := ["Please enter a description"], huds := [], pasted := none,
        copied := none, persisted := none, windowClosed := false,
        contextAcquired := false, backendCalled := false,
        loadingSetTrue := false, loadingFinal := false } := by
  simp [generateCommand, hp]

/-- C5 witness: the validation theorem applied to the whitespace-only
request "  " (in an environment whose backend would have succeeded). -/
theorem empty_prompt_rejected_witness :
    generateCommand "  " false
      ⟨⟨none, none, none⟩, Except.ok [ContentBlock.text "ls"], ["old"], true⟩ =
      { toasts := ["Please enter a description"], huds := [], pasted := none,
        copied := none, persisted := none, windowClosed := false,
        contextAcquired := false, backendCalled := false,
        loadingSetTrue := false, loadingFinal := false } :=
  empty_prompt_rejected "  " false
    ⟨⟨none, none, none⟩, Except.ok [ContentBlock.text "ls"], ["old"], true⟩ (by decide)

/-- C6: the "Use Prompt" (recall) action on history entry E sets the search
text to E's literal text, increments the generation epoch (`listKey`),
leaves the history and the idle `isLoading` untouched, and issues no
effect at all — in particular no generation request. -/
theorem recall_no_generation (st : UIState) (item : String)
    (hidle : st.isLoading = false) :
    (usePromptAction st item).1.searchText = item
  ∧ (usePromptAction st item).1.isLoading = false
  ∧ (usePromptAction st item).1.history = st.history
  ∧ (usePromptAction st item).1.listKey = st.listKey + 1
  ∧ (usePromptAction st item).2 = []
  ∧ ∀ p, UIEffect.generationRequest p ∉ (usePromptAction st item).2 := by
  simp [usePromptAction, hidle]

/-- C6 witness: recalling entry "E" from a concrete idle state. -/
theorem recall_no_generation_witness :
    (usePromptAction ⟨"", false, ["E"], 0⟩ "E").1.searchText = "E" :=
  (recall_no_generation ⟨"", false, ["E"], 0⟩ "E" rfl).1

/-- C7 counterexample: the whitespace query " " is neither treated as a
substring filter nor empty as a string: the code tests `searchText.trim()`,
so for history ["AB"] the query " " returns ["AB"] unfiltered, although
"AB" does not contain " " as a (case-insensitive) substring and " " is not
the empty query. -/
theorem filter_whitespace_query_counterexample :
    filteredHistory ["AB"] " " = ["AB"]
  ∧ jsIncludes (jsToLower "AB") (jsToLower " ") = false
  ∧ (" " : String) ≠ "" := by
  refine ⟨rfl, rfl, by decide⟩

/-- C7 (amended): when the query is empty after trimming (empty or
whitespace-only), the full history is returned unfiltered; otherwise the
result is exactly the entries containing the raw query as a
case-insensitive substring, in their original relative order; filtering
["Alpha", "beta", "Gamma"] with "a" yields all three in order. -/
theorem filter_history_spec (history : List String) (query : String) :
    ((jsTrim query).isEmpty = true → filteredHistory history query = history)
  ∧ ((jsTrim query).isEmpty = false →
      ∀ e, e ∈ filteredHistory history query ↔
        e ∈ history ∧ jsIncludes (jsToLower e) (jsToLower query) = true)
  ∧ (filteredHistory history query).Sublist history
  ∧ filteredHistory ["Alpha", "beta", "Gamma"] "a" = ["Alpha", "beta", "Gamma"]
  ∧ filteredHistory ["Alpha", "beta", "Gamma"] "" = ["Alpha", "beta", "Gamma"] := by
  refine ⟨?_, ?_, ?_, by rfl, by rfl⟩
  · intro h
    simp [filteredHistory, h]
  · intro h e
    simp [filteredHistory, h, List.mem_filter]
  · unfold filteredHistory
    split
    · exact List.Sublist.refl history
    · exact List.filter_sublist history

/-- C7 witness: the filter theorem applied to the empty query on a concrete
history. -/
theorem filter_history_spec_witness :
    filteredHistory ["grep TODO"] "" = ["grep TODO"] :=
  (filter_history_spec ["grep TODO"] "").1 rfl

/-- C8 counterexample: a raw context whose working directory is present but
the empty string: the directory is present yet not kept (and accordingly
contributes nothing to the prompt), contradicting "workingDirectory is kept
whenever present". -/
theorem dir_present_not_kept_counterexample :
    (Context.mk none none (some "")).currentDirectory = some ""
  ∧ keepDir ⟨none, none, some ""⟩ = false
  ∧ buildPrompt "x" ⟨none, none, some ""⟩ = "x" := by
  refine ⟨rfl, rfl, rfl⟩

/-- C8 (amended): the relevance filter decides each field independently:
the foreground app is kept iff it is a member of `RELEVANT_APPS`; the
working directory is kept iff it is present and non-empty; the selected
text is kept only if its length is below 2000; and each decision is a
function of its own field alone, so changing one field never alters
whether the others are kept. -/
theorem relevance_filter_rules (c c₂ : Context) :
    (keepApp c = true ↔ ∃ a, c.currentApp = some a ∧ a ∈ RELEVANT_APPS)
  ∧ (keepDir c = true ↔ ∃ d, c.currentDirectory = some d ∧ d.isEmpty = false)
  ∧ (keepSel c = true → ∃ s, c.selectedText = some s ∧ s.length < 2000)
  ∧ (c.currentApp = c₂.currentApp → keepApp c = keepApp c₂)
  ∧ (c.currentDirectory = c₂.currentDirectory → keepDir c = keepDir c₂)
  ∧ (c.selectedText = c₂.selectedText → keepSel c = keepSel c₂) := by
  refine ⟨?_, ?_, ?_, ?_, ?_, ?_⟩
  · rcases c with ⟨sel, app, dir⟩
    cases app with
    | none => simp [keepApp]
    | some a =>
        simp only [keepApp, Bool.and_eq_true, Bool.not_eq_true', Option.some.injEq]
        constructor
        · rintro ⟨h1, h2⟩
          exact ⟨a, rfl, by simpa using h2⟩
        · rintro ⟨x, rfl, hx⟩
          exact ⟨relevant_apps_nonempty _ hx, by simpa using hx⟩
  · rcases c with ⟨sel, app, dir⟩
    cases dir <;> simp [keepDir]
  · rcases c with ⟨sel, app, dir⟩
    cases sel with
    | none => simp [keepSel]
    | some s =>
        simp only [keepSel, Bool.and_eq_true, Option.some.injEq, decide_eq_true_eq]
        rintro ⟨-, h2⟩
        exact ⟨s, rfl, h2⟩
  · intro h
    simp only [keepApp]
    rw [h]
  · intro h
    simp only [keepDir]
    rw [h]
  · intro h
    simp only [keepSel]
    rw [h]

/-- C8 witness: the rules theorem applied to two concrete contexts sharing
a directory but differing in the other two fields: the directory decision
is unchanged. -/
theorem relevance_filter_rules_witness :
    keepDir ⟨none, none, some "~/p"⟩ = keepDir ⟨some "x", some "Safari", some "~/p"⟩ :=
  (relevance_filter_rules ⟨none, none, some "~/p"⟩ ⟨some "x", some "Safari", some "~/p"⟩).2.2.2.2.1 rfl

/-- C9 counterexample: `getHistory` has no try/catch, so a failing read
propagates the error, and malformed stored data makes `JSON.parse` throw —
in both cases the result is an error, not the empty list the claim
promises. -/
theorem read_failure_propagates_counterexample :
    getHistory (ReadOutcome.failed "storage read failed")
      = Except.error "storage read failed"
  ∧ getHistory (ReadOutcome.failed "storage read failed") ≠ Except.ok []
  ∧ getHistory (ReadOutcome.stored "oops") = Except.error "invalid JSON"
  ∧ getHistory (ReadOutcome.stored "oops") ≠ Except.ok [] := by
  refine ⟨rfl, fun h => Except.noConfusion h, rfl, fun h => Except.noConfusion h⟩

/-- C9 (amended): only a falsy stored value is tolerated as an empty
history — an absent key or an empty stored string yields `[]` — while a
failing read propagates its error and malformed stored data propagates the
parse error; well-formed stored JSON parses to the stored list. -/
theorem getHistory_read_tolerance :
    getHistory ReadOutcome.absent = Except.ok []
  ∧ getHistory (ReadOutcome.stored "") = Except.ok []
  ∧ (∀ msg, getHistory (ReadOutcome.failed msg) = Except.error msg)
  ∧ getHistory (ReadOutcome.stored "[\"git status\"]") = Except.ok ["git status"]
  ∧ getHistory (ReadOutcome.stored "not json") = Except.error "invalid JSON" := by
  refine ⟨rfl, rfl, fun msg => rfl, rfl, rfl⟩

/-- C10: the selected text is forwarded to the assembled prompt iff it is
non-empty and shorter than 2000 characters — in particular an empty-string
selection is dropped although its length 0 is below the threshold — and
likewise an empty-string working directory is dropped despite being
present. -/
theorem empty_selection_dropped (c : Context) :
    (keepSel c = true ↔
      ∃ s, c.selectedText = some s ∧ s.isEmpty = false ∧ s.length < 2000)
  ∧ selPart c = (if keepSel c then ["Selected text:\n" ++ c.selectedText.getD ""] else [])
  ∧ keepSel ⟨some "", c.currentApp, c.currentDirectory⟩ = false
  ∧ keepDir ⟨c.selectedText, c.currentApp, some ""⟩ = false
  ∧ buildPrompt "x" ⟨some "", none, some ""⟩ = "x" := by
  refine ⟨?_, selPart_eq c, rfl, rfl, rfl⟩
  rcases c with ⟨sel, app, dir⟩
  cases sel with
  | none => simp [keepSel]
  | some s =>
      simp only [keepSel, Bool.and_eq_true, Bool.not_eq_true', Option.some.injEq,
        decide_eq_true_eq]
      constructor
      · rintro ⟨h1, h2⟩
        exact ⟨s, rfl, h1, h2⟩
      · rintro ⟨x, rfl, hx1, hx2⟩
        exact ⟨hx1, hx2⟩
